import Mathlib

/-!
# Verification of the ajebo-tailor order-management core

A shallow embedding, in Lean 4, of the order-creation / cart / admin-order
subsystem of the ajebo-tailor backend (Python + asyncpg + PostgreSQL), together
with proofs and refutations of the specified properties.

Conventions:
* `Decimal` money values are embedded as `ℚ` (Python `Decimal` arithmetic on
  the values occurring here — sums, products, `min` — is exact, so `ℚ` is a
  faithful value-level model).
* Database tables are lists of row structures; SQL `WHERE` clauses become
  `List.find?` / `List.filter` with predicates translated clause by clause.
* Python `None` / SQL `NULL` becomes `Option`.
* Each fallible operation returns `Except ApiError α`; an `async with
  conn.transaction()` block is a wrapper that restores the initial state
  when its body returns an error (asyncpg rolls back on exception).
* Randomly generated identifiers (`uuid4`, order numbers) are passed in as
  explicit oracle arguments; no claim depends on their values.
-/

namespace AjeboTailor

set_option maxRecDepth 40000

/-! ## Binary floating-point value model

`shared/utils.py` computes tax as `Decimal(str(round(float(subtotal) * 0.08, 2)))`,
i.e. the exact decimal value is pushed through IEEE-754 binary64 arithmetic.
We model binary64 values exactly as rationals: `fl q` is the nearest binary64
value to `q` (ties to even significand).  The model covers the normal range
(no overflow/subnormal handling), which contains every value occurring in the
claims. -/

/-- Binary logarithm on naturals via explicit structural fuel (kernel-reducible,
unlike the well-founded `Nat.log`).  `log2Fuel f n = ⌊log₂ n⌋` whenever `f` is
at least the bit length of `n` (and `n > 0`). -/
def log2Fuel : ℕ → ℕ → ℕ
  | 0, _ => 0
  | f + 1, n => if 2 ≤ n then log2Fuel f (n / 2) + 1 else 0

/-- `⌊log₂ q⌋` for a positive rational `q = a / b`, computed exactly:
`⌊log₂ (a / b)⌋ = ⌊log₂ ⌊a·2^N / b⌋⌋ - N` for `N` large enough that
`a·2^N ≥ b`. -/
def ratLog2Floor (q : ℚ) : ℤ :=
  let a := q.num.toNat
  let b := q.den
  let N := log2Fuel 4096 b + 1
  (log2Fuel 4096 (a * 2 ^ N / b) : ℤ) - N

/-- Round `q` to the nearest integer multiple of `u > 0`, ties to the even
multiple (IEEE-754 / Python `round` tie-breaking). -/
def rndNearestEven (q u : ℚ) : ℚ :=
  let n : ℤ := ⌊q / u⌋
  let r : ℚ := q / u - n
  if 1/2 < r ∨ (r = 1/2 ∧ n % 2 ≠ 0) then (n + 1) * u else n * u

/-- Absolute value on `ℚ`, written out so that it kernel-reduces. -/
def ratAbs (q : ℚ) : ℚ := if q < 0 then -q else q

/-- The nearest IEEE-754 binary64 value to the rational `q` (round to nearest,
ties to even), represented exactly as a rational: `q` is rounded to the nearest
multiple of its unit in the last place `2^(⌊log₂ |q|⌋ - 52)`. -/
def fl (q : ℚ) : ℚ :=
  if q = 0 then 0 else rndNearestEven q ((2 : ℚ) ^ (ratLog2Floor (ratAbs q) - 52))

/-- Value of Python's `round(x, 2)` on a float whose exact value is `q`:
round to the nearest multiple of 1/100, ties to even.  (`Decimal(str(·))` of
the resulting float recovers exactly this 2-decimal value.) -/
def pythonRound2 (q : ℚ) : ℚ := rndNearestEven q (1/100)

/-- `shared/utils.py: calculate_tax` —
`Decimal(str(round(float(subtotal) * tax_rate, 2)))` with the default
`tax_rate = 0.08`.  The float literal `0.08` is `fl (8/100)`, the conversion
`float(subtotal)` is `fl subtotal`, the float product rounds once more, and
Python's 2-digit `round` acts on the exact value of that float. -/
def calculate_tax (subtotal : ℚ) : ℚ :=
  pythonRound2 (fl (fl subtotal * fl (8/100)))

/-- Modelled from the spec: rounding half-up at 2 decimal places. -/
def roundHalfUp2 (q : ℚ) : ℚ := (⌊q * 100 + 1/2⌋ : ℚ) / 100

/-- Modelled from the spec: `round(subtotal_after_discount * tax_rate, 2)`
with exact decimal arithmetic and round-half-up at 2 decimals. -/
def taxSpecRoundHalfUp (s : ℚ) : ℚ := roundHalfUp2 (s * (8/100))

/-- `shared/utils.py: calculate_shipping_cost` — the `country` argument is
`shipping_address.get('country', '')`.  `Decimal('5.00') = 5`,
`Decimal('1.5') = 3/2`, `Decimal('2.5') = 5/2`, `Decimal('100.00') = 100`. -/
def calculate_shipping_cost (subtotal : ℚ) (country : String) : ℚ :=
  let base_rate : ℚ := 5
  if 100 ≤ subtotal then 0
  else
    let c := country.toLower
    if ["us", "usa", "united states"].contains c then base_rate
    else if ["ca", "canada", "mx", "mexico"].contains c then base_rate * (3/2)
    else base_rate * (5/2)

/-! ## Error taxonomy (`shared/response.py`)

`ValidationException` (HTTP 422, code `VALIDATION_ERROR`), `NotFoundException`
(404, `NOT_FOUND`), `ConflictException` (409, `CONFLICT`) and the base
`APIException(status_code, message)`; plain FastAPI `HTTPException(status,
detail)` raised by the cart router is also modelled by `api`. -/

inductive ApiError where
  | validation (errors : List String)
  | notFound (resource : String)
  | conflict (message : String)
  | api (statusCode : ℕ) (message : String)
  deriving DecidableEq

/-- HTTP status carried by each exception class. -/
def ApiError.statusCode : ApiError → ℕ
  | validation _ => 422
  | notFound _ => 404
  | conflict _ => 409
  | api c _ => c

/-- Is the exception (an instance of) `ValidationException`? -/
def ApiError.isValidation : ApiError → Bool
  | validation _ => true
  | _ => false

/-- Is the exception (an instance of) `NotFoundException`? -/
def ApiError.isNotFound : ApiError → Bool
  | notFound _ => true
  | _ => false

/-- Python `str(e)` for these exceptions (`HTTPException.__str__` is
`f"{status_code}: {detail}"`; `ValidationException` has detail
`"Validation failed"`, `NotFoundException` has detail `f"{resource} not found"`). -/
def ApiError.pyStr : ApiError → String
  | validation _ => "422: Validation failed"
  | notFound r => "404: " ++ r ++ " not found"
  | conflict m => "409: " ++ m
  | api c m => toString c ++ ": " ++ m

/-! ## Data model

Rows of the tables consumed and produced by the order core.  Only the columns
the embedded code reads or writes are carried. -/

inductive OrderStatus where
  | pending | confirmed | processing | shipped | delivered | cancelled | refunded
  deriving DecidableEq

inductive PaymentStatus where
  | pending | paid | failed | refunded
  deriving DecidableEq

structure Product where
  id : String
  name : String
  slug : String
  price : ℚ
  stock_quantity : ℤ
  images : List String
  is_active : Bool
  deriving DecidableEq

structure Address where
  id : String
  user_id : String
  /-- `dict(address_row).get('country', '')`; a NULL column is modelled as `""`. -/
  country : String
  deriving DecidableEq

structure Coupon where
  id : String
  code : String
  is_active : Bool
  /-- `expires_at IS NULL OR expires_at > NOW()` at the time of the call. -/
  not_expired : Bool
  usage_limit : Option ℕ
  used_count : ℕ
  min_order_amount : Option ℚ
  /-- `'percentage'` or `'fixed'`. -/
  discount_type : String
  discount_value : ℚ
  max_discount_amount : Option ℚ
  deriving DecidableEq

structure OrderRow where
  id : String
  order_number : String
  user_id : String
  status : OrderStatus
  payment_status : PaymentStatus
  payment_method : Option String
  priority : String
  subtotal : ℚ
  tax_amount : ℚ
  shipping_amount : ℚ
  discount_amount : ℚ
  total : ℚ
  shipping_address_id : Option String
  billing_address_id : Option String
  notes : Option String
  deriving DecidableEq

structure OrderItemRow where
  id : String
  order_id : String
  product_id : String
  product_name : String
  quantity : ℕ
  size : Option String
  color : Option String
  product_price : ℚ
  subtotal : ℚ
  deriving DecidableEq

structure CartItemRow where
  id : String
  user_id : String
  product_id : String
  quantity : ℕ
  size : Option String
  color : Option String
  deriving DecidableEq

structure Db where
  products : List Product
  addresses : List Address
  coupons : List Coupon
  orders : List OrderRow
  order_items : List OrderItemRow
  cart_items : List CartItemRow
  deriving DecidableEq

/-- `OrderItemCreate` (pydantic): `quantity` is validated `gt=0` at the API
boundary, so operations receive positive quantities; we carry `ℕ` and add the
positivity as a hypothesis where needed. -/
structure OrderItemCreate where
  product_id : String
  quantity : ℕ
  size : Option String
  color : Option String
  deriving DecidableEq

/-- `OrderCreate` (pydantic). -/
structure OrderCreate where
  items : List OrderItemCreate
  shipping_address_id : Option String
  billing_address_id : Option String
  payment_method : Option String
  priority : String
  coupon_code : Option String
  notes : Option String
  deriving DecidableEq

/-- per-item snapshot accumulated by `_validate_order_items`
(`{'id','name','slug','price','images'}`). -/
structure ProductSnapshot where
  id : String
  name : String
  slug : String
  price : ℚ
  images : List String
  deriving DecidableEq

/-- `CartItemCreate` (pydantic), `quantity` validated `gt=0`. -/
structure CartItemCreate where
  product_id : String
  quantity : ℕ
  size : Option String
  color : Option String
  deriving DecidableEq

/-! ## Order manager (`modules/orders/manager.py`) -/

/-- `OrderManager._get_user_address`.  (The source re-fetches the row with both
conditions after the two checks; within one transaction that third lookup can
no longer fail, so it is not modelled separately.) -/
def getUserAddress (db : Db) (user_id address_id : String) : Except ApiError Address :=
  match db.addresses.find? (fun a => a.id == address_id) with
  | none => .error (.validation ["Address " ++ address_id ++ " does not exist"])
  | some a =>
    if a.user_id ≠ user_id then
      .error (.validation ["Address " ++ address_id ++ " does not belong to user " ++
        user_id ++ ". It belongs to user " ++ a.user_id])
    else .ok a

/-- `SELECT id, name, slug, price, stock_quantity, images FROM products
WHERE id = $1 AND is_active = true`. -/
def findActiveProduct (db : Db) (pid : String) : Option Product :=
  db.products.find? (fun p => p.id == pid && p.is_active)

/-- the `items_data.append({...})` record of `_validate_order_items`:
the frozen per-item snapshot of the catalog row. -/
def snapshotOf (p : Product) : ProductSnapshot :=
  { id := p.id, name := p.name, slug := p.slug, price := p.price, images := p.images }

/-- `OrderManager._validate_order_items`: per item, look up the active product,
fail on absence or insufficient stock, otherwise accumulate the exact subtotal
and the product snapshot. -/
def validateOrderItems (db : Db) : List OrderItemCreate → Except ApiError (ℚ × List ProductSnapshot)
  | [] => .ok (0, [])
  | item :: rest =>
    match findActiveProduct db item.product_id with
    | none => .error (.validation ["Product " ++ item.product_id ++ " not found or inactive"])
    | some p =>
      if p.stock_quantity < (item.quantity : ℤ) then
        .error (.validation ["Insufficient stock for product " ++ p.name ++ ". Available: " ++
          toString p.stock_quantity ++ ", Requested: " ++ toString item.quantity])
      else
        match validateOrderItems db rest with
        | .error e => .error e
        | .ok (s, snaps) =>
          .ok (p.price * (item.quantity : ℚ) + s, snapshotOf p :: snaps)

/-- truthiness of an optional `Decimal` column in Python: `None` and `0` are
falsy (`if coupon_row['max_discount_amount']:` skips a zero cap). -/
def decimalTruthy : Option ℚ → Bool
  | none => false
  | some x => decide (x ≠ 0)

/-- the minimum-order-amount rejection test of `_apply_coupon`:
`if coupon_row['min_order_amount'] and subtotal < coupon_row['min_order_amount']`
(Python truthiness: `None` and `Decimal('0')` skip the check). -/
def couponMinFail (c : Coupon) (subtotal : ℚ) : Bool :=
  match c.min_order_amount with
  | none => false
  | some m => decide (m ≠ 0) && decide (subtotal < m)

/-- the `# Calculate discount` block of `_apply_coupon`:
percentage coupons discount `subtotal * value/100`, capped at
`max_discount_amount` when that is set (and truthy); fixed coupons discount
`min(value, subtotal)`. -/
def couponDiscount (c : Coupon) (subtotal : ℚ) : ℚ :=
  if c.discount_type == "percentage" then
    let d := subtotal * (c.discount_value / 100)
    if decimalTruthy c.max_discount_amount then min d (c.max_discount_amount.getD 0) else d
  else
    min c.discount_value subtotal

/-- `OrderManager._apply_coupon`: look up an active, unexpired, under-limit
coupon by code, check the minimum order amount, compute the discount and
increment `used_count`.  (The minimum-amount error message renders the ℚ with
`toString`, which differs from `Decimal` display; no claim depends on it.) -/
def applyCoupon (db : Db) (coupon_code : String) (subtotal : ℚ) :
    Except ApiError (ℚ × String × Db) :=
  match db.coupons.find? (fun c =>
      c.code == coupon_code && c.is_active && c.not_expired &&
      (match c.usage_limit with
       | none => true
       | some l => c.used_count < l)) with
  | none => .error (.validation ["Invalid or expired coupon code"])
  | some c =>
    if couponMinFail c subtotal then
      .error (.validation ["Minimum order amount of $" ++ toString (c.min_order_amount.getD 0) ++
        " required for this coupon"])
    else
      .ok (couponDiscount c subtotal, coupon_code,
        { db with coupons := db.coupons.map (fun x =>
            if x.id == c.id then { x with used_count := x.used_count + 1 } else x) })

/-- one iteration of the order-items loop of `create_order`: insert the
`order_items` row (with the snapshotted name and unit price) and decrement the
product's stock. -/
def insertOrderItem (order_id item_id : String) (item : OrderItemCreate)
    (info : ProductSnapshot) (db : Db) : Db :=
  let unit_price := info.price
  let total_price := unit_price * (item.quantity : ℚ)
  let row : OrderItemRow := {
    id := item_id, order_id := order_id, product_id := item.product_id,
    product_name := info.name, quantity := item.quantity, size := item.size,
    color := item.color, product_price := unit_price, subtotal := total_price }
  { db with
    order_items := row :: db.order_items,
    products := db.products.map (fun p =>
      if p.id == item.product_id then
        { p with stock_quantity := p.stock_quantity - (item.quantity : ℤ) }
      else p) }

/-- the `for item_data, product_info in zip(order_data.items, items_data)` loop;
the per-item `uuid4` is modelled as `order_id ++ ":" ++ position`. -/
def insertOrderItems (order_id : String) : Db → List OrderItemCreate → List ProductSnapshot → ℕ → Db
  | db, item :: items, info :: infos, k =>
    insertOrderItems order_id
      (insertOrderItem order_id (order_id ++ ":" ++ toString k) item info db) items infos (k + 1)
  | db, _, _, _ => db

/-- the header row built by `create_order` (process 6–7: cost calculation and
the `INSERT INTO orders` values).  `db1` is the state after the coupon step. -/
def buildOrderRow (user_id : String) (od : OrderCreate) (order_id order_number : String)
    (shipping_address : Option Address) (subtotal coupon_discount : ℚ) : OrderRow :=
  let tax_amount := calculate_tax (subtotal - coupon_discount)
  let shipping_cost :=
    match shipping_address with
    | some sa => calculate_shipping_cost subtotal sa.country
    | none => (0 : ℚ)
  let total_amount := subtotal + tax_amount + shipping_cost - coupon_discount
  { id := order_id, order_number := order_number, user_id := user_id,
    status := .pending, payment_status := .pending,
    payment_method := od.payment_method, priority := od.priority,
    subtotal := subtotal, tax_amount := tax_amount, shipping_amount := shipping_cost,
    discount_amount := coupon_discount, total := total_amount,
    shipping_address_id := od.shipping_address_id,
    billing_address_id := od.billing_address_id, notes := od.notes }

/-- processes 7–13 of `create_order`: insert the order header, insert the items
and decrement stock, clear the user's cart. -/
def finishOrder (db1 : Db) (user_id : String) (od : OrderCreate)
    (order_id order_number : String) (shipping_address : Option Address)
    (subtotal coupon_discount : ℚ) (items_data : List ProductSnapshot) : String × Db :=
  let orderRow := buildOrderRow user_id od order_id order_number shipping_address
    subtotal coupon_discount
  let db2 := { db1 with orders := orderRow :: db1.orders }
  let db3 := insertOrderItems order_id db2 od.items items_data 0
  let db4 := { db3 with cart_items := db3.cart_items.filter (fun c => c.user_id != user_id) }
  (order_id, db4)

/-- body of `OrderManager.create_order` — the code inside
`async with conn.transaction():`.  `order_id` and `order_number` are the
generated identifiers (`uuid4`, `generate_order_number`), passed as oracles. -/
def createOrderBody (db : Db) (user_id : String) (od : OrderCreate)
    (order_id order_number : String) : Except ApiError (String × Db) :=
  let addrStep : Except ApiError (Option Address) :=
    match od.shipping_address_id with
    | some said =>
      match getUserAddress db user_id said with
      | .error e => .error e
      | .ok sa =>
        match getUserAddress db user_id (od.billing_address_id.getD said) with
        | .error e => .error e
        | .ok _ => .ok (some sa)
    | none => .ok none
  match addrStep with
  | .error e => .error e
  | .ok shipping_address =>
    match validateOrderItems db od.items with
    | .error e => .error e
    | .ok (subtotal, items_data) =>
      let couponStep : Except ApiError (ℚ × Db) :=
        match od.coupon_code with
        | some cc =>
          match applyCoupon db cc subtotal with
          | .error e => .error e
          | .ok (d, _code, dbc) => .ok (d, dbc)
        | none => .ok (0, db)
      match couponStep with
      | .error e => .error e
      | .ok (coupon_discount, db1) =>
        .ok (finishOrder db1 user_id od order_id order_number shipping_address
          subtotal coupon_discount items_data)

/-- `OrderManager.create_order`: the transaction wrapper — on any raised error
the state rolls back to the initial `db` (asyncpg `conn.transaction()`), and
`except APIException: raise` re-raises the typed error unchanged. -/
def create_order (db : Db) (user_id : String) (od : OrderCreate)
    (order_id order_number : String) : Except ApiError String × Db :=
  match createOrderBody db user_id od order_id order_number with
  | .ok (oid, db2) => (.ok oid, db2)
  | .error e => (.error e, db)

/-- the stock mutation `UPDATE products SET stock_quantity = stock_quantity +
$1 WHERE id = $2` of `cancel_order` (a negative `d` gives the decrement
performed at creation). -/
def stockDelta (ps : List Product) (pid : String) (d : ℤ) : List Product :=
  ps.map (fun p => if p.id == pid then { p with stock_quantity := p.stock_quantity + d } else p)

/-- the `# Restore product stock` loop of `cancel_order`: one stock update per
order-item row. -/
def restoreStock (db : Db) (items : List OrderItemRow) : Db :=
  items.foldl (fun d oi =>
    { d with products := stockDelta d.products oi.product_id (oi.quantity : ℤ) }) db

/-- `OrderManager.cancel_order`: only `pending`/`confirmed` orders of the
requesting user may be cancelled; on success the status becomes `cancelled`
and each order item's quantity is added back to its product's stock. -/
def cancel_order (db : Db) (order_id user_id : String) : Except ApiError Bool × Db :=
  match db.orders.find? (fun o => o.id == order_id && o.user_id == user_id) with
  | none => (.error (.notFound "Order not found"), db)
  | some o =>
    if o.status ≠ .pending ∧ o.status ≠ .confirmed then
      (.error (.conflict "Order cannot be cancelled"), db)
    else
      (.ok true,
        restoreStock
          { db with orders := db.orders.map (fun x =>
              if x.id == order_id then { x with status := OrderStatus.cancelled } else x) }
          (db.order_items.filter (fun oi => oi.order_id == order_id)))

/-- one row of the items query of `OrderManager.get_order_by_id`
(customer/read path). -/
structure OrderItemView where
  product_id : String
  quantity : ℕ
  size : Option String
  color : Option String
  product_price : ℚ
  subtotal : ℚ
  product_name : String
  product_slug : String
  deriving DecidableEq

/-- items part of `OrderManager.get_order_by_id`:
`SELECT oi.*, p.name as product_name, p.slug as product_slug, p.images as
product_images FROM order_items oi JOIN products p ON oi.product_id = p.id
WHERE oi.order_id = $1`.  `dict(row)` keeps the last of two identically named
columns, so `product_name` is the live `p.name` (shadowing the stored
`oi.product_name` snapshot) while `product_price` (present only in `oi.*`)
remains the snapshot; the inner join drops items whose product row is gone. -/
def getOrderItemsView (db : Db) (order_id : String) : List OrderItemView :=
  (db.order_items.filter (fun oi => oi.order_id == order_id)).filterMap (fun oi =>
    match db.products.find? (fun p => p.id == oi.product_id) with
    | none => none
    | some p => some {
        product_id := oi.product_id, quantity := oi.quantity, size := oi.size,
        color := oi.color, product_price := oi.product_price, subtotal := oi.subtotal,
        product_name := p.name, product_slug := p.slug })

/-! ## Admin order manager (`modules/admin/order_manager.py`) -/

/-- the soft-delete write of `AdminOrderManager.delete_order`:
`UPDATE orders SET status = 'cancelled' WHERE id = $2`. -/
def softDeleteOrders (db : Db) (order_id : String) : List OrderRow :=
  db.orders.map (fun x => if x.id == order_id then { x with status := OrderStatus.cancelled } else x)

/-- the `try:` body of `AdminOrderManager.delete_order`: missing order →
`NotFoundError`, `shipped`/`delivered` → `ValidationError`, otherwise set the
status to `cancelled` (no stock restoration). -/
def adminDeleteOrderBody (db : Db) (order_id : String) : Except ApiError (Bool × Db) :=
  match db.orders.find? (fun o => o.id == order_id) with
  | none => .error (.notFound "Order not found")
  | some o =>
    if o.status = .shipped ∨ o.status = .delivered then
      .error (.validation ["Cannot delete shipped or delivered orders"])
    else
      .ok (true, { db with orders := softDeleteOrders db order_id })

/-- `AdminOrderManager.delete_order`, including its blanket
`except Exception as e:` handler, which re-raises every error — the typed
`NotFoundError`/`ValidationError` included — as
`APIException(500, f"Failed to delete order: {str(e)}")`. -/
def admin_delete_order (db : Db) (order_id : String) : Except ApiError Bool × Db :=
  match adminDeleteOrderBody db order_id with
  | .ok (b, db2) => (.ok b, db2)
  | .error e => (.error (.api 500 ("Failed to delete order: " ++ e.pyStr)), db)

/-- the filter object of `AdminOrderManager.get_orders`.  The `date_from`,
`date_to` and free-text `search` filters add independent conjuncts on columns
(timestamps, customer name/email) not carried by our row model and are omitted;
every claim is about the status clauses. -/
structure OrderFiltersModel where
  status : Option OrderStatus
  payment_status : Option PaymentStatus
  payment_method : Option String
  priority : Option String
  min_amount : Option ℚ
  max_amount : Option ℚ
  deriving DecidableEq

/-- `if not filters or not filters.status or filters.status.value != 'cancelled'`:
the default exclusion of cancelled orders applies. -/
def adminExcludesCancelled (filters : Option OrderFiltersModel) : Bool :=
  match filters with
  | none => true
  | some f =>
    match f.status with
    | none => true
    | some s => decide (s ≠ OrderStatus.cancelled)

/-- the `WHERE` clause assembled by `AdminOrderManager.get_orders` (Decimal
amount filters share Python truthiness: a zero bound adds no condition). -/
def adminOrderWhere (filters : Option OrderFiltersModel) (o : OrderRow) : Bool :=
  (!adminExcludesCancelled filters || decide (o.status ≠ OrderStatus.cancelled)) &&
  (match filters with
   | none => true
   | some f =>
     (match f.status with
      | none => true
      | some s => decide (o.status = s)) &&
     (match f.payment_status with
      | none => true
      | some s => decide (o.payment_status = s)) &&
     (match f.payment_method with
      | none => true
      | some m => decide (o.payment_method = some m)) &&
     (match f.priority with
      | none => true
      | some p => decide (o.priority = p)) &&
     (match f.min_amount with
      | none => true
      | some m => !decide (m ≠ 0) || decide (m ≤ o.total)) &&
     (match f.max_amount with
      | none => true
      | some m => !decide (m ≠ 0) || decide (o.total ≤ m)))

structure AdminOrdersResult where
  rows : List OrderRow
  total : ℕ
  deriving DecidableEq

/-- `AdminOrderManager.get_orders`: the count query and the page query share
the same `WHERE` clause; the page is `LIMIT limit OFFSET (page-1)*limit` of the
matching rows (the `ORDER BY` permutation is omitted — every page is a
selection from the matched set, which is all the claims quantify over). -/
def admin_get_orders (db : Db) (filters : Option OrderFiltersModel)
    (page limit : ℕ) : AdminOrdersResult :=
  let matched := db.orders.filter (adminOrderWhere filters)
  { rows := (matched.drop ((page - 1) * limit)).take limit, total := matched.length }

/-! ## Cart router (`modules/orders/router.py: add_to_cart`) -/

/-- SQL three-valued equality `column = $param` as it behaves in the cart
lookup: TRUE only when both sides are non-NULL and equal (`NULL = x` is
UNKNOWN, so a NULL `size`/`color` never matches). -/
def sqlEq (a b : Option String) : Bool :=
  match a, b with
  | some x, some y => x == y
  | _, _ => false

/-- the `UPDATE cart_items SET quantity = $1 WHERE id = $3` write of
`add_to_cart`. -/
def bumpCartRow (db : Db) (row_id : String) (new_quantity : ℕ) : List CartItemRow :=
  db.cart_items.map (fun r => if r.id == row_id then { r with quantity := new_quantity } else r)

/-- `add_to_cart`: check the product is active and stocked, then either bump
the quantity of the row found by
`WHERE user_id = $1 AND product_id = $2 AND size = $3 AND color = $4`
(after re-checking stock against the cumulative quantity
`new_quantity = existing.quantity + cart_item.quantity`) or insert a new row.
FastAPI `HTTPException(s, d)` is modelled as `.api s d`. -/
def add_to_cart (db : Db) (user_id : String) (ci : CartItemCreate) (new_id : String) :
    Except ApiError Bool × Db :=
  match findActiveProduct db ci.product_id with
  | none => (.error (.api 404 "Product not found"), db)
  | some p =>
    if p.stock_quantity < (ci.quantity : ℤ) then
      (.error (.api 400 "Insufficient stock"), db)
    else
      match db.cart_items.find? (fun r =>
          r.user_id == user_id && r.product_id == ci.product_id &&
          sqlEq r.size ci.size && sqlEq r.color ci.color) with
      | some existing =>
        if p.stock_quantity < ((existing.quantity + ci.quantity : ℕ) : ℤ) then
          (.error (.api 400 "Insufficient stock for requested quantity"), db)
        else
          (.ok true, { db with cart_items := bumpCartRow db existing.id (existing.quantity + ci.quantity) })
      | none =>
        (.ok true, { db with cart_items :=
          { id := new_id, user_id := user_id, product_id := ci.product_id,
            quantity := ci.quantity, size := ci.size, color := ci.color } :: db.cart_items })

-- validation examples (float model behaviour at concrete points)
example : fl (8/100) = 5764607523034235 / 72057594037927936 := by
  with_unfolding_all rfl
example : fl (3/16) = 3/16 := by with_unfolding_all rfl
example : calculate_tax (3/16) = 1/100 := by with_unfolding_all rfl
example : taxSpecRoundHalfUp (3/16) = 2/100 := by with_unfolding_all rfl
example : calculate_tax 120 = 96/10 := by with_unfolding_all rfl
example : calculate_tax 30 = 24/10 := by with_unfolding_all rfl
example : calculate_tax (-5) = -4/10 := by with_unfolding_all rfl
example : calculate_shipping_cost 120 "US" = 0 := by with_unfolding_all rfl
example : calculate_shipping_cost 40 "us" = 5 := by with_unfolding_all rfl
example : calculate_shipping_cost 40 "Canada" = 15/2 := by with_unfolding_all rfl
example : calculate_shipping_cost 40 "ng" = 25/2 := by with_unfolding_all rfl

/-! ## Structural lemmas about the create-order pipeline -/

theorem insertOrderItems_orders (order_id : String) :
    ∀ (items : List OrderItemCreate) (infos : List ProductSnapshot) (db : Db) (k : ℕ),
      (insertOrderItems order_id db items infos k).orders = db.orders
  | [], _, _, _ => rfl
  | _ :: _, [], _, _ => rfl
  | item :: items, info :: infos, db, k => by
    rw [insertOrderItems]
    exact insertOrderItems_orders order_id items infos _ _

theorem insertOrderItems_coupons (order_id : String) :
    ∀ (items : List OrderItemCreate) (infos : List ProductSnapshot) (db : Db) (k : ℕ),
      (insertOrderItems order_id db items infos k).coupons = db.coupons
  | [], _, _, _ => rfl
  | _ :: _, [], _, _ => rfl
  | item :: items, info :: infos, db, k => by
    rw [insertOrderItems]
    exact insertOrderItems_coupons order_id items infos _ _

theorem applyCoupon_ok_products (db : Db) (cc : String) (s d : ℚ) (code : String) (dbc : Db)
    (h : applyCoupon db cc s = .ok (d, code, dbc)) :
    dbc.products = db.products ∧ dbc.orders = db.orders ∧
    dbc.order_items = db.order_items ∧ dbc.cart_items = db.cart_items ∧
    dbc.addresses = db.addresses := by
  unfold applyCoupon at h
  split at h
  · exact absurd h (by simp)
  · split at h
    · exact absurd h (by simp)
    · simp only [Except.ok.injEq, Prod.mk.injEq] at h
      obtain ⟨-, -, h⟩ := h
      subst h
      exact ⟨rfl, rfl, rfl, rfl, rfl⟩

/-- `applyCoupon` succeeds exactly with the discount computed by
`couponDiscount` on the coupon found by the lookup. -/
theorem applyCoupon_ok_discount (db : Db) (cc : String) (s d : ℚ) (code : String) (dbc : Db)
    (h : applyCoupon db cc s = .ok (d, code, dbc)) :
    ∃ c, db.coupons.find? (fun c =>
        c.code == cc && c.is_active && c.not_expired &&
        (match c.usage_limit with
         | none => true
         | some l => c.used_count < l)) = some c ∧
      d = couponDiscount c s := by
  unfold applyCoupon at h
  split at h
  · exact absurd h (by simp)
  case h_2 c hc =>
    split at h
    · exact absurd h (by simp)
    · simp only [Except.ok.injEq, Prod.mk.injEq] at h
      exact ⟨c, hc, h.1.symm⟩

/-- the orders table after a successful `finishOrder` is the new header row on
top of the previous orders. -/
theorem finishOrder_orders (db1 : Db) (user_id : String) (od : OrderCreate)
    (order_id order_number : String) (sa : Option Address) (s cd : ℚ)
    (infos : List ProductSnapshot) :
    (finishOrder db1 user_id od order_id order_number sa s cd infos).2.orders =
      buildOrderRow user_id od order_id order_number sa s cd :: db1.orders := by
  unfold finishOrder
  simp [insertOrderItems_orders]

/-- `createOrderBody` success yields the state built by `finishOrder` from the
validated subtotal and the coupon step. -/
theorem createOrderBody_ok_struct (db : Db) (user_id : String) (od : OrderCreate)
    (order_id order_number ret : String) (db2 : Db)
    (h : createOrderBody db user_id od order_id order_number = .ok (ret, db2)) :
    ∃ (shipping_address : Option Address) (subtotal : ℚ) (items_data : List ProductSnapshot)
      (coupon_discount : ℚ) (db1 : Db),
      validateOrderItems db od.items = .ok (subtotal, items_data) ∧
      (∀ cc, od.coupon_code = some cc →
        ∃ code, applyCoupon db cc subtotal = .ok (coupon_discount, code, db1)) ∧
      (od.coupon_code = none → coupon_discount = 0 ∧ db1 = db) ∧
      (∀ said, od.shipping_address_id = some said →
        ∃ a, getUserAddress db user_id said = .ok a ∧ shipping_address = some a) ∧
      (od.shipping_address_id = none → shipping_address = none) ∧
      (ret, db2) = finishOrder db1 user_id od order_id order_number shipping_address
        subtotal coupon_discount items_data := by
  unfold createOrderBody at h
  split at h
  case h_1 said heq =>
    split at h
    · exact absurd h (by simp)
    case h_2 sa hsa =>
      split at h
      · exact absurd h (by simp)
      case h_2 ba hba =>
        split at h
        · exact absurd h (by simp)
        case h_2 subtotal items_data hval =>
          split at h
          case h_1 cc hcc =>
            split at h
            · exact absurd h (by simp)
            case h_2 d code dbc hac =>
              simp only [Except.ok.injEq] at h
              refine ⟨some sa, subtotal, items_data, d, dbc, hval, ?_, ?_, ?_, ?_, h.symm⟩
              · intro cc' hcc'
                rw [hcc] at hcc'
                cases hcc'
                exact ⟨code, hac⟩
              · intro h0; rw [hcc] at h0; cases h0
              · intro said' hsaid'
                rw [heq] at hsaid'
                cases hsaid'
                exact ⟨sa, hsa, rfl⟩
              · intro h0; rw [heq] at h0; cases h0
          case h_2 hcc =>
            simp only [Except.ok.injEq] at h
            refine ⟨some sa, subtotal, items_data, 0, db, hval, ?_, ?_, ?_, ?_, h.symm⟩
            · intro cc' hcc'; rw [hcc] at hcc'; cases hcc'
            · intro _; exact ⟨rfl, rfl⟩
            · intro said' hsaid'
              rw [heq] at hsaid'
              cases hsaid'
              exact ⟨sa, hsa, rfl⟩
            · intro h0; rw [heq] at h0; cases h0
  case h_2 heq =>
    split at h
    · exact absurd h (by simp)
    case h_2 subtotal items_data hval =>
      split at h
      case h_1 cc hcc =>
        split at h
        · exact absurd h (by simp)
        case h_2 d code dbc hac =>
          simp only [Except.ok.injEq] at h
          refine ⟨none, subtotal, items_data, d, dbc, hval, ?_, ?_, ?_, ?_, h.symm⟩
          · intro cc' hcc'
            rw [hcc] at hcc'
            cases hcc'
            exact ⟨code, hac⟩
          · intro h0; rw [hcc] at h0; cases h0
          · intro said' hsaid'; rw [heq] at hsaid'; cases hsaid'
          · intro _; rfl
      case h_2 hcc =>
        simp only [Except.ok.injEq] at h
        refine ⟨none, subtotal, items_data, 0, db, hval, ?_, ?_, ?_, ?_, h.symm⟩
        · intro cc' hcc'; rw [hcc] at hcc'; cases hcc'
        · intro _; exact ⟨rfl, rfl⟩
        · intro said' hsaid'; rw [heq] at hsaid'; cases hsaid'
        · intro _; rfl

/-! ## Claim C3 — atomicity of `create_order` -/

/-- **C3**: `create_order` is atomic: whenever any step fails (address
validation, item validation, coupon application, or any insert), no state
change persists — the returned state equals the initial state in every table:
no order row, no order-item rows, no stock decrement, no coupon `used_count`
increment, and no cart deletion. -/
theorem C3_create_order_atomic (db : Db) (user_id : String) (od : OrderCreate)
    (order_id order_number : String) (e : ApiError) (db2 : Db)
    (h : create_order db user_id od order_id order_number = (.error e, db2)) :
    db2 = db := by
  unfold create_order at h
  split at h
  · exact absurd h (by simp)
  · simp only [Prod.mk.injEq] at h
    exact h.2.symm

/-- shared fixture builder: an order row with the given id, owner, status and
total (other columns neutral). -/
def fixtureOrder (oid uid : String) (st : OrderStatus) (tot : ℚ) : OrderRow where
  id := oid
  order_number := "N-" ++ oid
  user_id := uid
  status := st
  payment_status := .pending
  payment_method := none
  priority := "medium"
  subtotal := tot
  tax_amount := 0
  shipping_amount := 0
  discount_amount := 0
  total := tot
  shipping_address_id := none
  billing_address_id := none
  notes := none

def c3ProdA : Product where
  id := "pA"
  name := "A"
  slug := "a"
  price := 20
  stock_quantity := 10
  images := []
  is_active := true

def c3ProdB : Product where
  id := "pB"
  name := "B"
  slug := "b"
  price := 7
  stock_quantity := 3
  images := []
  is_active := true

def c3Db : Db where
  products := [c3ProdA, c3ProdB]
  addresses := []
  coupons := []
  orders := []
  order_items := []
  cart_items := [{ id := "r1", user_id := "u1", product_id := "pA", quantity := 1, size := none, color := none }]

def c3Od : OrderCreate where
  items := [⟨"pA", 2, none, none⟩, ⟨"pB", 5, none, none⟩]
  shipping_address_id := none
  billing_address_id := none
  payment_method := none
  priority := "medium"
  coupon_code := none
  notes := none

/-- C3 witness: ordering 2×pA (valid, stock 10) then 5×pB (stock 3) fails, and
the state after the failed call — products, stock, orders, order items, cart —
is exactly the initial state. -/
theorem C3_create_order_atomic_witness :
    (create_order c3Db "u1" c3Od "o1" "N1").2 = c3Db := by
  have h : create_order c3Db "u1" c3Od "o1" "N1" =
      (.error (.validation ["Insufficient stock for product B. Available: 3, Requested: 5"]),
        c3Db) := by
    with_unfolding_all rfl
  have h2 := C3_create_order_atomic c3Db "u1" c3Od "o1" "N1" _ _ h
  rw [h]

/-! ## Claim C10 — admin listing excludes cancelled orders -/

theorem filter_congr_list {α : Type} (p q : α → Bool) :
    ∀ (l : List α), (∀ x ∈ l, p x = q x) → l.filter p = l.filter q
  | [], _ => rfl
  | x :: xs, h => by
    have hx := h x (by simp)
    have hxs := filter_congr_list p q xs (fun y hy => h y (by simp [hy]))
    rw [List.filter_cons, List.filter_cons, hx, hxs]

/-- **C10**: the admin order listing excludes orders with status `cancelled`
from both the result rows and the total count for every call whose status
filter is absent or not `cancelled` (that is exactly when
`adminExcludesCancelled` holds); cancelled orders are returned only when the
status filter is exactly `cancelled` — with that filter every returned row is
cancelled. -/
theorem C10_admin_orders_exclude_cancelled :
    (∀ (db : Db) (filters : Option OrderFiltersModel) (page limit : ℕ),
      adminExcludesCancelled filters = true →
        (∀ o ∈ (admin_get_orders db filters page limit).rows,
            o.status ≠ OrderStatus.cancelled) ∧
        (admin_get_orders db filters page limit).total =
          (db.orders.filter (fun o =>
            adminOrderWhere filters o && decide (o.status ≠ OrderStatus.cancelled))).length) ∧
    (∀ (db : Db) (f : OrderFiltersModel) (page limit : ℕ),
      f.status = some OrderStatus.cancelled →
        ∀ o ∈ (admin_get_orders db (some f) page limit).rows,
          o.status = OrderStatus.cancelled) := by
  constructor
  · intro db filters page limit hexcl
    have hrows : ∀ o ∈ (admin_get_orders db filters page limit).rows,
        adminOrderWhere filters o = true := by
      intro o ho
      simp only [admin_get_orders] at ho
      have h1 := List.take_subset _ _ ho
      have h2 := List.drop_subset _ _ h1
      exact (List.mem_filter.mp h2).2
    constructor
    · intro o ho
      have hw := hrows o ho
      unfold adminOrderWhere at hw
      rw [hexcl] at hw
      have h3 := ((Bool.and_eq_true _ _).mp hw).1
      simpa using h3
    · simp only [admin_get_orders]
      congr 1
      apply filter_congr_list
      intro o _
      cases hwo : adminOrderWhere filters o with
      | false => simp
      | true =>
        have h1 := hwo
        unfold adminOrderWhere at h1
        rw [hexcl] at h1
        have hne := ((Bool.and_eq_true _ _).mp h1).1
        simp only [Bool.not_true, Bool.false_or, decide_eq_true_eq] at hne
        simp [hne]
  · intro db f page limit hst o ho
    simp only [admin_get_orders] at ho
    have h2 := List.drop_subset _ _ (List.take_subset _ _ ho)
    have hw := (List.mem_filter.mp h2).2
    unfold adminOrderWhere at hw
    simp only [Bool.and_eq_true] at hw
    obtain ⟨-, ⟨⟨⟨⟨hs, -⟩, -⟩, -⟩, -⟩, -⟩ := hw
    rw [hst] at hs
    simpa using hs

def c10Db : Db where
  products := []
  addresses := []
  coupons := []
  orders := [fixtureOrder "o1" "u1" .pending 10, fixtureOrder "o2" "u1" .cancelled 20,
    fixtureOrder "o3" "u2" .delivered 30]
  order_items := []
  cart_items := []

def c10CancelledFilters : OrderFiltersModel where
  status := some .cancelled
  payment_status := none
  payment_method := none
  priority := none
  min_amount := none
  max_amount := none

/-- C10 witness: with no filter, the cancelled order `o2` is excluded from the
count (total 2 of 3); with the status filter `cancelled`, every returned row is
cancelled. -/
theorem C10_admin_orders_exclude_cancelled_witness :
    (admin_get_orders c10Db none 1 20).total = 2 ∧
    (fixtureOrder "o2" "u1" OrderStatus.cancelled 20).status = OrderStatus.cancelled := by
  constructor
  · have h := (C10_admin_orders_exclude_cancelled.1 c10Db none 1 20 rfl).2
    rw [h]
    with_unfolding_all rfl
  · apply C10_admin_orders_exclude_cancelled.2 c10Db c10CancelledFilters 1 20 rfl
    with_unfolding_all decide

/-! ## Claim C7 — admin `delete_order` -/

def c7Db : Db where
  products := []
  addresses := []
  coupons := []
  orders := [fixtureOrder "o1" "u1" .shipped 50, fixtureOrder "o2" "u1" .pending 20]
  order_items := []
  cart_items := []

/-- C7 counterexample: deleting a shipped order does **not** surface a
`ValidationError` recoverable from the exception type — the blanket
`except Exception` handler re-raises it as a generic `APIException(500, ...)`,
so the caller sees status 500 and no validation-typed error. -/
theorem C7_delete_order_counterexample :
    admin_delete_order c7Db "o1" =
      (.error (.api 500 "Failed to delete order: 422: Validation failed"), c7Db) ∧
    (ApiError.api 500 "Failed to delete order: 422: Validation failed").isValidation = false ∧
    (ApiError.api 500 "Failed to delete order: 422: Validation failed").statusCode = 500 := by
  refine ⟨?_, rfl, rfl⟩
  with_unfolding_all rfl

/-- **C7 (amended)**: admin `delete_order` refuses deletion when the order's
status is `shipped` or `delivered`, but the `ValidationError` is swallowed by
the method's blanket handler and surfaces as a generic `APIException(500,
"Failed to delete order: …")`, so the error kind is not recoverable from the
exception type; for any other existing order it sets the status to `cancelled`
without touching any product stock; a missing id likewise surfaces as the
wrapped 500 (around the internal `NotFoundError`), with the state unchanged in
both error cases. -/
theorem C7_delete_order_amended (db : Db) (order_id : String) :
    (∀ o, db.orders.find? (fun x => x.id == order_id) = some o →
      ((o.status = .shipped ∨ o.status = .delivered) →
        admin_delete_order db order_id =
          (.error (.api 500 "Failed to delete order: 422: Validation failed"), db)) ∧
      (o.status ≠ .shipped → o.status ≠ .delivered →
        admin_delete_order db order_id = (.ok true, { db with orders := softDeleteOrders db order_id }) ∧
        (admin_delete_order db order_id).2.products = db.products)) ∧
    (db.orders.find? (fun x => x.id == order_id) = none →
      admin_delete_order db order_id =
        (.error (.api 500 "Failed to delete order: 404: Order not found not found"), db)) := by
  constructor
  · intro o hfind
    constructor
    · intro hst
      simp only [admin_delete_order, adminDeleteOrderBody, hfind]
      rw [if_pos hst]
      rfl
    · intro h1 h2
      have hneg : ¬ (o.status = .shipped ∨ o.status = .delivered) := by
        rintro (h | h)
        · exact h1 h
        · exact h2 h
      constructor
      · simp only [admin_delete_order, adminDeleteOrderBody, hfind]
        rw [if_neg hneg]
      · simp only [admin_delete_order, adminDeleteOrderBody, hfind]
        rw [if_neg hneg]
  · intro hfind
    simp only [admin_delete_order, adminDeleteOrderBody, hfind]
    rfl

/-- C7 witness: deleting the pending order `o2` of `c7Db` succeeds and only
rewrites its status to `cancelled` (products untouched); deleting a missing id
yields the wrapped 500. -/
theorem C7_delete_order_amended_witness :
    admin_delete_order c7Db "o2" = (.ok true, { c7Db with orders := softDeleteOrders c7Db "o2" }) ∧
    admin_delete_order c7Db "oX" =
      (.error (.api 500 "Failed to delete order: 404: Order not found not found"), c7Db) := by
  constructor
  · exact (((C7_delete_order_amended c7Db "o2").1 (fixtureOrder "o2" "u1" .pending 20)
      (by with_unfolding_all rfl)).2 (by with_unfolding_all decide)
      (by with_unfolding_all decide)).1
  · exact (C7_delete_order_amended c7Db "oX").2 (by with_unfolding_all rfl)

/-! ## Claim C9 — cart add merging by (product, size, color) -/

def c9Prod : Product where
  id := "p1"
  name := "Shirt"
  slug := "shirt"
  price := 30
  stock_quantity := 10
  images := []
  is_active := true

def c9Db : Db where
  products := [c9Prod]
  addresses := []
  coupons := []
  orders := []
  order_items := []
  cart_items := []

def c9AddOnce : Except ApiError Bool × Db := add_to_cart c9Db "u1" ⟨"p1", 2, none, none⟩ "r1"

def c9AddTwice : Except ApiError Bool × Db := add_to_cart c9AddOnce.2 "u1" ⟨"p1", 3, none, none⟩ "r2"

/-- C9 counterexample: adding the combination (p1, size NULL, color NULL) with
quantity 2 and then again with quantity 3 yields **two** cart rows with
quantities [3, 2] — not one row with quantity 5 — because the SQL lookup
`size = $3 AND color = $4` never matches NULL values. -/
theorem C9_add_to_cart_counterexample :
    c9AddOnce.1 = .ok true ∧ c9AddTwice.1 = .ok true ∧
    c9AddTwice.2.cart_items.map (fun r => (r.product_id, r.quantity)) = [("p1", 3), ("p1", 2)] ∧
    c9AddTwice.2.cart_items.length = 2 := by
  refine ⟨?_, ?_, ?_, ?_⟩ <;> with_unfolding_all rfl

/-- **C9 (amended)**: when the existing-row lookup matches — which requires the
row's and the request's `size` and `color` to be non-NULL and equal — adding to
the cart updates that row's quantity to the sum (one row, never a duplicate,
cart length unchanged), and the addition is rejected with an
insufficient-stock error when existing quantity + new quantity exceeds the
product's stock; combinations with a NULL `size` or `color` are never matched
by the lookup (see the counterexample) and insert a fresh row instead. -/
theorem C9_add_to_cart_amended (db : Db) (user_id : String) (ci : CartItemCreate)
    (new_id : String) (p : Product) (ex : CartItemRow)
    (hp : findActiveProduct db ci.product_id = some p)
    (hstock0 : ¬ p.stock_quantity < (ci.quantity : ℤ))
    (hex : db.cart_items.find? (fun r =>
      r.user_id == user_id && r.product_id == ci.product_id &&
      sqlEq r.size ci.size && sqlEq r.color ci.color) = some ex) :
    (¬ p.stock_quantity < ((ex.quantity + ci.quantity : ℕ) : ℤ) →
      add_to_cart db user_id ci new_id =
        (.ok true, { db with cart_items := bumpCartRow db ex.id (ex.quantity + ci.quantity) }) ∧
      (add_to_cart db user_id ci new_id).2.cart_items.length = db.cart_items.length) ∧
    (p.stock_quantity < ((ex.quantity + ci.quantity : ℕ) : ℤ) →
      add_to_cart db user_id ci new_id =
        (.error (.api 400 "Insufficient stock for requested quantity"), db)) := by
  constructor
  · intro hcum
    have heq : add_to_cart db user_id ci new_id =
        (.ok true, { db with cart_items := bumpCartRow db ex.id (ex.quantity + ci.quantity) }) := by
      simp only [add_to_cart, hp, hex]
      rw [if_neg hstock0, if_neg hcum]
    refine ⟨heq, ?_⟩
    rw [heq]
    simp [bumpCartRow]
  · intro hcum
    simp only [add_to_cart, hp, hex]
    rw [if_neg hstock0, if_pos hcum]

def c9wRow : CartItemRow where
  id := "r0"
  user_id := "u1"
  product_id := "p1"
  quantity := 2
  size := some "m"
  color := some "red"

def c9wDb : Db where
  products := [c9Prod]
  addresses := []
  coupons := []
  orders := []
  order_items := []
  cart_items := [c9wRow]

/-- C9 witness: with non-NULL size/color, adding quantities 2 then 3 of the
same (product, size, color) leaves a single row with quantity 5. -/
theorem C9_add_to_cart_amended_witness :
    add_to_cart c9wDb "u1" ⟨"p1", 3, some "m", some "red"⟩ "r9" =
      (.ok true, { c9wDb with cart_items := bumpCartRow c9wDb "r0" 5 }) ∧
    (add_to_cart c9wDb "u1" ⟨"p1", 3, some "m", some "red"⟩ "r9").2.cart_items.map
      (fun r => r.quantity) = [5] := by
  have h := C9_add_to_cart_amended c9wDb "u1" ⟨"p1", 3, some "m", some "red"⟩ "r9" c9Prod c9wRow
    (by with_unfolding_all rfl) (by with_unfolding_all decide) (by with_unfolding_all rfl)
  have h1 := (h.1 (by with_unfolding_all decide)).1
  constructor
  · exact h1
  · rw [h1]
    with_unfolding_all rfl

/-! ## Claim C2 — item validation errors and subtotal/snapshots -/

/-- characterization of a successful `_validate_order_items` run: one snapshot
per item, the subtotal is Σ(snapshot unit price × quantity), and every snapshot
is the catalog row (id/name/slug/price/images) of an active product with
sufficient stock. -/
theorem validateOrderItems_ok_spec (db : Db) :
    ∀ (items : List OrderItemCreate) (s : ℚ) (snaps : List ProductSnapshot),
      validateOrderItems db items = .ok (s, snaps) →
      snaps.length = items.length ∧
      s = (items.zip snaps).foldr (fun pr acc => pr.2.price * (pr.1.quantity : ℚ) + acc) 0 ∧
      ∀ pr ∈ items.zip snaps, ∃ p, findActiveProduct db pr.1.product_id = some p ∧
        ¬ p.stock_quantity < (pr.1.quantity : ℤ) ∧
        pr.2 = snapshotOf p := by
  intro items
  induction items with
  | nil =>
    intro s snaps h
    simp only [validateOrderItems, Except.ok.injEq, Prod.mk.injEq] at h
    obtain ⟨h1, h2⟩ := h
    subst h1; subst h2
    simp
  | cons item rest ih =>
    intro s snaps h
    simp only [validateOrderItems] at h
    cases hp : findActiveProduct db item.product_id with
    | none => simp only [hp] at h; exact absurd h (by simp)
    | some p =>
      simp only [hp] at h
      by_cases hs : p.stock_quantity < (item.quantity : ℤ)
      · rw [if_pos hs] at h; exact absurd h (by simp)
      · rw [if_neg hs] at h
        cases hrest : validateOrderItems db rest with
        | error e => rw [hrest] at h; exact absurd h (by simp)
        | ok pr =>
          obtain ⟨s', snaps'⟩ := pr
          rw [hrest] at h
          simp only [Except.ok.injEq, Prod.mk.injEq] at h
          obtain ⟨hseq, hsneq⟩ := h
          obtain ⟨ihl, ihs, ihmem⟩ := ih s' snaps' hrest
          subst hseq; subst hsneq
          refine ⟨by simp [ihl], by simp [ihs, snapshotOf], ?_⟩
          intro pr hpr
          simp only [List.zip_cons_cons, List.mem_cons] at hpr
          rcases hpr with rfl | hpr
          · exact ⟨p, hp, hs, rfl⟩
          · exact ihmem pr hpr

/-- **C2 (amended)**: the item validator fails with a `ValidationError` (HTTP
422, not a `NotFound`-typed error) whose message identifies the offending
product id when a requested product is absent or inactive; it fails with a
`ValidationError` (there is no separate `InsufficientStock` exception type)
whose message includes the available and requested quantities when the stock
is short; on success it returns subtotal = Σ(unit_price × quantity) over the
per-item snapshots of product id/name/slug/price/images. -/
theorem C2_validate_items_amended (db : Db) :
    (∀ (item : OrderItemCreate) (rest : List OrderItemCreate),
      findActiveProduct db item.product_id = none →
        validateOrderItems db (item :: rest) =
          .error (.validation ["Product " ++ item.product_id ++ " not found or inactive"])) ∧
    (∀ (item : OrderItemCreate) (rest : List OrderItemCreate) (p : Product),
      findActiveProduct db item.product_id = some p →
      p.stock_quantity < (item.quantity : ℤ) →
        validateOrderItems db (item :: rest) =
          .error (.validation ["Insufficient stock for product " ++ p.name ++ ". Available: " ++
            toString p.stock_quantity ++ ", Requested: " ++ toString item.quantity])) ∧
    (∀ (items : List OrderItemCreate) (s : ℚ) (snaps : List ProductSnapshot),
      validateOrderItems db items = .ok (s, snaps) →
      snaps.length = items.length ∧
      s = (items.zip snaps).foldr (fun pr acc => pr.2.price * (pr.1.quantity : ℚ) + acc) 0 ∧
      ∀ pr ∈ items.zip snaps, ∃ p, findActiveProduct db pr.1.product_id = some p ∧
        pr.2 = snapshotOf p) := by
  refine ⟨?_, ?_, ?_⟩
  · intro item rest hp
    simp only [validateOrderItems, hp]
  · intro item rest p hp hs
    simp only [validateOrderItems, hp]
    rw [if_pos hs]
  · intro items s snaps h
    obtain ⟨h1, h2, h3⟩ := validateOrderItems_ok_spec db items s snaps h
    exact ⟨h1, h2, fun pr hpr => by
      obtain ⟨p, hp, -, hsnap⟩ := h3 pr hpr
      exact ⟨p, hp, hsnap⟩⟩

def c2ProdA : Product where
  id := "pA"
  name := "Alpha"
  slug := "alpha"
  price := 8
  stock_quantity := 4
  images := ["a.png"]
  is_active := true

def c2Db : Db where
  products := [c2ProdA]
  addresses := []
  coupons := []
  orders := []
  order_items := []
  cart_items := []

/-- C2 counterexample: requesting an absent product fails with a
`ValidationError` (HTTP 422, `VALIDATION_ERROR`), not with the `NotFound`
exception type the claim names. -/
theorem C2_validate_items_counterexample :
    validateOrderItems c2Db [⟨"pZ", 1, none, none⟩] =
      .error (.validation ["Product pZ not found or inactive"]) ∧
    (ApiError.validation ["Product pZ not found or inactive"]).isNotFound = false ∧
    (ApiError.validation ["Product pZ not found or inactive"]).statusCode = 422 := by
  refine ⟨?_, rfl, rfl⟩
  with_unfolding_all rfl

/-- C2 witness: the absent-product and insufficient-stock failures at concrete
inputs, with the messages identifying the product and the available/requested
quantities. -/
theorem C2_validate_items_amended_witness :
    validateOrderItems c2Db [⟨"pZ", 1, none, none⟩] =
      .error (.validation ["Product pZ not found or inactive"]) ∧
    validateOrderItems c2Db [⟨"pA", 9, none, none⟩] =
      .error (.validation ["Insufficient stock for product Alpha. Available: 4, Requested: 9"]) := by
  constructor
  · exact (C2_validate_items_amended c2Db).1 ⟨"pZ", 1, none, none⟩ []
      (by with_unfolding_all rfl)
  · have h := (C2_validate_items_amended c2Db).2.1 ⟨"pA", 9, none, none⟩ [] c2ProdA
      (by with_unfolding_all rfl) (by with_unfolding_all decide)
    rw [h]
    with_unfolding_all rfl

/-! ## Claim C4 — tax rounding and float representation -/

/-- **C4** (code bug): `calculate_tax` pushes the Decimal value through binary
floating point (`float(subtotal) * 0.08`) and Python's `round` (nearest / ties
to even on the binary value), then converts back.  At discounted subtotal
0.1875 = 3/16 (e.g. subtotal 1.00 with an 81.25% percentage coupon) the exact
tax is 0.1875 · 0.08 = 0.015, a two-decimal tie: round-half-up — what the spec
requires — gives 0.02, but the code returns 0.01 because the float product
lands just below the tie.  So the computation does represent money in binary
floating point, and it is not round-half-up. -/
theorem C4_tax_rounding_code_bug :
    (3/16 : ℚ) * (8/100) = 3/200 ∧
    calculate_tax (3/16) = 1/100 ∧
    taxSpecRoundHalfUp (3/16) = 2/100 ∧
    calculate_tax (3/16) ≠ taxSpecRoundHalfUp (3/16) := by
  refine ⟨by norm_num, ?_, ?_, ?_⟩
  · with_unfolding_all rfl
  · with_unfolding_all rfl
  · with_unfolding_all decide

/-! ## Claim C8 — frozen snapshot on order reads -/

def c8Prod : Product where
  id := "p1"
  name := "Classic"
  slug := "classic"
  price := 10
  stock_quantity := 5
  images := []
  is_active := true

def c8Db : Db where
  products := [c8Prod]
  addresses := []
  coupons := []
  orders := []
  order_items := []
  cart_items := []

def c8Od : OrderCreate where
  items := [⟨"p1", 1, none, none⟩]
  shipping_address_id := none
  billing_address_id := none
  payment_method := none
  priority := "medium"
  coupon_code := none
  notes := none

/-- the state after creating an order for one unit of `p1`. -/
def c8Created : Db := (create_order c8Db "u1" c8Od "o1" "N1").2

/-- the same state after the catalog row is renamed and repriced. -/
def c8Renamed : Db :=
  { c8Created with products := c8Created.products.map (fun p =>
      if p.id == "p1" then { p with name := "Renamed", price := 99 } else p) }

/-- the same state after the catalog row is deleted. -/
def c8Deleted : Db :=
  { c8Created with products := c8Created.products.filter (fun p => p.id != "p1") }

/-- **C8** (code bug): the order-item row does store the creation-time snapshot
(name "Classic", unit price 10), and that stored snapshot is untouched by a
later catalog rename/reprice; but the read path `get_order_by_id` aliases the
live `p.name` over the stored `product_name` column (`dict(row)` keeps the
last duplicate), so the returned product name is the **new** catalog name
"Renamed" — while the returned unit price stays the snapshot 10 even after the
reprice to 99 — and once the product row is deleted, the `JOIN products`
(inner join) drops the item from the result entirely even though the
order-item row still exists. -/
theorem C8_snapshot_read_code_bug :
    c8Created.order_items.map (fun oi => (oi.product_name, oi.product_price)) =
      [("Classic", 10)] ∧
    c8Renamed.order_items.map (fun oi => (oi.product_name, oi.product_price)) =
      [("Classic", 10)] ∧
    (getOrderItemsView c8Renamed "o1").map (fun v => (v.product_name, v.product_price)) =
      [("Renamed", 10)] ∧
    getOrderItemsView c8Deleted "o1" = [] ∧
    c8Deleted.order_items.length = 1 := by
  refine ⟨?_, ?_, ?_, ?_, ?_⟩ <;> with_unfolding_all rfl

/-! ## Claim C1 — monetary breakdown of created orders -/

theorem rndNearestEven_nonneg (q u : ℚ) (hq : 0 ≤ q) (hu : 0 < u) :
    0 ≤ rndNearestEven q u := by
  simp only [rndNearestEven]
  have hqu : (0 : ℚ) ≤ q / u := div_nonneg hq hu.le
  have hn : (0 : ℤ) ≤ ⌊q / u⌋ := Int.le_floor.mpr (by exact_mod_cast hqu)
  split
  · apply mul_nonneg _ hu.le
    have : (0 : ℤ) ≤ ⌊q / u⌋ + 1 := by omega
    exact_mod_cast this
  · exact mul_nonneg (by exact_mod_cast hn) hu.le

theorem fl_nonneg (q : ℚ) (hq : 0 ≤ q) : 0 ≤ fl q := by
  unfold fl
  split
  · exact le_refl 0
  · exact rndNearestEven_nonneg _ _ hq (by positivity)

theorem calculate_tax_nonneg (s : ℚ) (hs : 0 ≤ s) : 0 ≤ calculate_tax s := by
  unfold calculate_tax pythonRound2
  exact rndNearestEven_nonneg _ _
    (fl_nonneg _ (mul_nonneg (fl_nonneg _ hs) (fl_nonneg _ (by norm_num)))) (by norm_num)

theorem calculate_shipping_cost_nonneg (s : ℚ) (c : String) :
    0 ≤ calculate_shipping_cost s c := by
  simp only [calculate_shipping_cost]
  split_ifs <;> norm_num

/-- bounds for `couponDiscount` on well-formed coupon data: the discount is
non-negative and at most the subtotal.  For percentage coupons this needs
`discount_value ≤ 100`, which nothing in the code enforces — see the C1
counterexample. -/
theorem couponDiscount_bounds (c : Coupon) (s : ℚ) (hs : 0 ≤ s)
    (hv : 0 ≤ c.discount_value) (hmax : 0 ≤ c.max_discount_amount.getD 0)
    (hperc : c.discount_type = "percentage" → c.discount_value ≤ 100) :
    0 ≤ couponDiscount c s ∧ couponDiscount c s ≤ s := by
  unfold couponDiscount
  split
  case isTrue hT =>
    have hperc100 : c.discount_value ≤ 100 := hperc (by simpa using hT)
    have hd0 : 0 ≤ s * (c.discount_value / 100) :=
      mul_nonneg hs (div_nonneg hv (by norm_num))
    have hd1 : s * (c.discount_value / 100) ≤ s := by
      apply mul_le_of_le_one_right hs
      rw [div_le_one (by norm_num)]
      exact hperc100
    split
    · exact ⟨le_min hd0 hmax, (min_le_left _ _).trans hd1⟩
    · exact ⟨hd0, hd1⟩
  case isFalse hT =>
    exact ⟨le_min hv hs, min_le_right _ _⟩

theorem foldr_subtotal_nonneg :
    ∀ (l : List (OrderItemCreate × ProductSnapshot)),
      (∀ pr ∈ l, 0 ≤ pr.2.price) →
      0 ≤ l.foldr (fun pr acc => pr.2.price * (pr.1.quantity : ℚ) + acc) 0
  | [], _ => le_refl 0
  | pr :: l, h => by
    have h0 := h pr (by simp)
    have hrest := foldr_subtotal_nonneg l (fun x hx => h x (by simp [hx]))
    simp only [List.foldr_cons]
    have : 0 ≤ pr.2.price * (pr.1.quantity : ℚ) :=
      mul_nonneg h0 (by exact_mod_cast Nat.zero_le _)
    linarith

/-- a successful item validation yields a non-negative subtotal whenever every
catalog price is non-negative. -/
theorem validateOrderItems_subtotal_nonneg (db : Db) (items : List OrderItemCreate)
    (s : ℚ) (snaps : List ProductSnapshot)
    (hprice : ∀ p ∈ db.products, 0 ≤ p.price)
    (h : validateOrderItems db items = .ok (s, snaps)) : 0 ≤ s := by
  obtain ⟨-, hsum, hmem⟩ := validateOrderItems_ok_spec db items s snaps h
  rw [hsum]
  apply foldr_subtotal_nonneg
  intro pr hpr
  obtain ⟨p, hfp, -, hsnap⟩ := hmem pr hpr
  have hpm : p ∈ db.products := List.mem_of_find?_eq_some hfp
  rw [hsnap]
  simpa [snapshotOf] using hprice p hpm

/-- **C1 (amended)**: for every order successfully created by `create_order`,
the persisted monetary breakdown satisfies
`total = subtotal + tax + shipping - discount` (this identity holds by
construction, unconditionally), and — **provided** every catalog price is
non-negative and the coupon data is well-formed (`discount_value ≥ 0`,
`max_discount_amount ≥ 0` when set, and percentage coupons have
`discount_value ≤ 100`) — all four components are non-negative and
`discount ≤ subtotal`.  Without the percentage bound the code lets a
percentage coupon discount exceed the subtotal (see the counterexample). -/
theorem C1_order_totals_amended (db : Db) (user_id : String) (od : OrderCreate)
    (order_id order_number ret : String) (db2 : Db)
    (hprice : ∀ p ∈ db.products, 0 ≤ p.price)
    (hcoup : ∀ c ∈ db.coupons, 0 ≤ c.discount_value ∧ 0 ≤ c.max_discount_amount.getD 0 ∧
      (c.discount_type = "percentage" → c.discount_value ≤ 100))
    (h : create_order db user_id od order_id order_number = (.ok ret, db2)) :
    ∃ o, db2.orders.head? = some o ∧
      o.total = o.subtotal + o.tax_amount + o.shipping_amount - o.discount_amount ∧
      0 ≤ o.subtotal ∧ 0 ≤ o.tax_amount ∧ 0 ≤ o.shipping_amount ∧
      0 ≤ o.discount_amount ∧ o.discount_amount ≤ o.subtotal := by
  unfold create_order at h
  cases hb : createOrderBody db user_id od order_id order_number with
  | error e => rw [hb] at h; exact absurd h (by simp)
  | ok pr =>
    obtain ⟨r0, dbX⟩ := pr
    rw [hb] at h
    simp only [Prod.mk.injEq, Except.ok.injEq] at h
    obtain ⟨-, hdb⟩ := h
    subst hdb
    obtain ⟨sa, subtotal, items_data, cd, db1, hval, hccS, hccN, hsS, hsN, hfin⟩ :=
      createOrderBody_ok_struct db user_id od order_id order_number r0 dbX hb
    have hdbX : dbX = (finishOrder db1 user_id od order_id order_number sa
        subtotal cd items_data).2 := congrArg Prod.snd hfin
    have hsub : 0 ≤ subtotal :=
      validateOrderItems_subtotal_nonneg db od.items subtotal items_data hprice hval
    have hdisc : 0 ≤ cd ∧ cd ≤ subtotal := by
      cases hcc : od.coupon_code with
      | none =>
        obtain ⟨h0, -⟩ := hccN hcc
        subst h0
        exact ⟨le_refl 0, hsub⟩
      | some cc =>
        obtain ⟨code, hac⟩ := hccS cc hcc
        obtain ⟨c, hcf, hcd⟩ := applyCoupon_ok_discount db cc subtotal cd code db1 hac
        have hcmem := List.mem_of_find?_eq_some hcf
        obtain ⟨hv, hm, hp⟩ := hcoup c hcmem
        rw [hcd]
        exact couponDiscount_bounds c subtotal hsub hv hm hp
    refine ⟨buildOrderRow user_id od order_id order_number sa subtotal cd, ?_, ?_, ?_, ?_, ?_, ?_, ?_⟩
    · rw [hdbX, finishOrder_orders]
      rfl
    · rfl
    · exact hsub
    · exact calculate_tax_nonneg _ (by linarith [hdisc.2])
    · show 0 ≤ (buildOrderRow user_id od order_id order_number sa subtotal cd).shipping_amount
      cases sa with
      | none => exact le_refl 0
      | some a => exact calculate_shipping_cost_nonneg subtotal a.country
    · exact hdisc.1
    · exact hdisc.2

def c1Prod : Product where
  id := "p1"
  name := "Classic"
  slug := "classic"
  price := 10
  stock_quantity := 5
  images := []
  is_active := true

def c1Coup : Coupon where
  id := "c1"
  code := "MEGA"
  is_active := true
  not_expired := true
  usage_limit := none
  used_count := 0
  min_order_amount := none
  discount_type := "percentage"
  discount_value := 150
  max_discount_amount := none

def c1Db : Db where
  products := [c1Prod]
  addresses := []
  coupons := [c1Coup]
  orders := []
  order_items := []
  cart_items := []

def c1Od : OrderCreate where
  items := [⟨"p1", 1, none, none⟩]
  shipping_address_id := none
  billing_address_id := none
  payment_method := none
  priority := "medium"
  coupon_code := some "MEGA"
  notes := none

/-- C1 counterexample: an order created with an active percentage coupon of
value 150 (no `max_discount_amount` cap) persists subtotal 10, discount 15,
tax −0.40 and total −5.40: `discount ≤ subtotal` fails and two components are
negative, so the claim as stated is false on the code. -/
theorem C1_order_totals_counterexample :
    (create_order c1Db "u1" c1Od "o1" "N1").1 = .ok "o1" ∧
    ((create_order c1Db "u1" c1Od "o1" "N1").2.orders.map (fun o =>
      (o.subtotal, o.discount_amount, o.tax_amount, o.shipping_amount, o.total))) =
      [(10, 15, -2/5, 0, -27/5)] ∧
    ¬ ((15 : ℚ) ≤ 10) ∧ ¬ ((0 : ℚ) ≤ -2/5) := by
  refine ⟨?_, ?_, by norm_num, by norm_num⟩ <;> with_unfolding_all rfl

def c1wCoup : Coupon where
  id := "c2"
  code := "TENOFF"
  is_active := true
  not_expired := true
  usage_limit := none
  used_count := 0
  min_order_amount := none
  discount_type := "fixed"
  discount_value := 4
  max_discount_amount := none

def c1wDb : Db where
  products := [c1Prod]
  addresses := []
  coupons := [c1wCoup]
  orders := []
  order_items := []
  cart_items := []

def c1wOd : OrderCreate where
  items := [⟨"p1", 2, none, none⟩]
  shipping_address_id := none
  billing_address_id := none
  payment_method := none
  priority := "medium"
  coupon_code := some "TENOFF"
  notes := none

/-- C1 witness: with well-formed coupon data (fixed coupon of 4 on a subtotal
of 20) the created order satisfies the full invariant: subtotal 20, discount 4,
tax 1.28, shipping 0, total 17.28. -/
theorem C1_order_totals_amended_witness :
    ((create_order c1wDb "u1" c1wOd "o1" "N1").2.orders.map (fun o =>
      (o.subtotal, o.discount_amount, o.tax_amount, o.total))) = [(20, 4, 32/25, 432/25)] := by
  have happ := C1_order_totals_amended c1wDb "u1" c1wOd "o1" "N1" "o1"
    (create_order c1wDb "u1" c1wOd "o1" "N1").2
    (by with_unfolding_all decide) (by with_unfolding_all decide)
    (by with_unfolding_all rfl)
  with_unfolding_all rfl

/-! ## Claim C5 — shipping cost rules -/

/-- a successful address resolution returns a stored address with the given id
owned by the requesting user. -/
theorem getUserAddress_ok (db : Db) (uid aid : String) (a : Address)
    (h : getUserAddress db uid aid = .ok a) :
    a ∈ db.addresses ∧ a.id = aid ∧ a.user_id = uid := by
  unfold getUserAddress at h
  cases hf : db.addresses.find? (fun x => x.id == aid) with
  | none => simp only [hf] at h; exact absurd h (by simp)
  | some a' =>
    simp only [hf] at h
    split at h
    · exact absurd h (by simp)
    case isFalse hne =>
      simp only [Except.ok.injEq] at h
      subst h
      have hmem := List.mem_of_find?_eq_some hf
      have hpred := List.find?_some hf
      refine ⟨hmem, by simpa using hpred, ?_⟩
      exact not_not.mp hne

/-- **C5**: on every successfully created order, the persisted shipping amount
is 0 when no shipping address was supplied; otherwise a stored address of the
requesting user with the given id exists and the shipping amount is: 0 when
the persisted (pre-discount) subtotal is ≥ 100, else 5 for US, 7.5 for
Canada/Mexico, and 12.5 for every other country — always computed from the
pre-discount, pre-tax subtotal column of the same order row. -/
theorem C5_shipping_rules (db : Db) (user_id : String) (od : OrderCreate)
    (order_id order_number ret : String) (db2 : Db)
    (h : create_order db user_id od order_id order_number = (.ok ret, db2)) :
    ∃ o, db2.orders.head? = some o ∧
      (od.shipping_address_id = none → o.shipping_amount = 0) ∧
      (∀ said, od.shipping_address_id = some said →
        ∃ a, a ∈ db.addresses ∧ a.id = said ∧ a.user_id = user_id ∧
          o.shipping_amount =
            (if 100 ≤ o.subtotal then 0
             else if ["us", "usa", "united states"].contains a.country.toLower then 5
             else if ["ca", "canada", "mx", "mexico"].contains a.country.toLower then 15/2
             else 25/2)) := by
  unfold create_order at h
  cases hb : createOrderBody db user_id od order_id order_number with
  | error e => rw [hb] at h; exact absurd h (by simp)
  | ok pr =>
    obtain ⟨r0, dbX⟩ := pr
    rw [hb] at h
    simp only [Prod.mk.injEq, Except.ok.injEq] at h
    obtain ⟨-, hdb⟩ := h
    subst hdb
    obtain ⟨sa, subtotal, items_data, cd, db1, hval, hccS, hccN, hsS, hsN, hfin⟩ :=
      createOrderBody_ok_struct db user_id od order_id order_number r0 dbX hb
    have hdbX : dbX = (finishOrder db1 user_id od order_id order_number sa
        subtotal cd items_data).2 := congrArg Prod.snd hfin
    refine ⟨buildOrderRow user_id od order_id order_number sa subtotal cd, ?_, ?_, ?_⟩
    · rw [hdbX, finishOrder_orders]
      rfl
    · intro hnone
      have hsa := hsN hnone
      subst hsa
      rfl
    · intro said hsaid
      obtain ⟨a, ha, hsa⟩ := hsS said hsaid
      obtain ⟨hmem, hid, huid⟩ := getUserAddress_ok db user_id said a ha
      subst hsa
      refine ⟨a, hmem, hid, huid, ?_⟩
      show calculate_shipping_cost subtotal a.country = _
      show calculate_shipping_cost subtotal a.country =
        (if 100 ≤ (buildOrderRow user_id od order_id order_number (some a) subtotal cd).subtotal
         then 0
         else if ["us", "usa", "united states"].contains a.country.toLower then 5
         else if ["ca", "canada", "mx", "mexico"].contains a.country.toLower then 15/2
         else 25/2)
      have hbs : (buildOrderRow user_id od order_id order_number (some a) subtotal cd).subtotal
          = subtotal := rfl
      rw [hbs]
      simp only [calculate_shipping_cost]
      split_ifs <;> norm_num

def c5Addr : Address where
  id := "a1"
  user_id := "u1"
  country := "US"

def c5Prod : Product where
  id := "p1"
  name := "Classic"
  slug := "classic"
  price := 40
  stock_quantity := 5
  images := []
  is_active := true

def c5Db : Db where
  products := [c5Prod]
  addresses := [c5Addr]
  coupons := []
  orders := []
  order_items := []
  cart_items := []

def c5Od : OrderCreate where
  items := [⟨"p1", 1, none, none⟩]
  shipping_address_id := some "a1"
  billing_address_id := none
  payment_method := none
  priority := "medium"
  coupon_code := none
  notes := none

/-- C5 witness: a 40.00 order shipped to a US address pays shipping 5 (and the
persisted row records subtotal 40, shipping 5). -/
theorem C5_shipping_rules_witness :
    ((create_order c5Db "u1" c5Od "o1" "N1").2.orders.map (fun o =>
      (o.subtotal, o.shipping_amount))) = [(40, 5)] := by
  have happ := C5_shipping_rules c5Db "u1" c5Od "o1" "N1" "o1"
    (create_order c5Db "u1" c5Od "o1" "N1").2 (by with_unfolding_all rfl)
  with_unfolding_all rfl

/-! ## Claim C6 — cancel restores stock; conflict otherwise -/

theorem map_congr_fun {α β : Type} (f g : α → β) (h : ∀ a, f a = g a) :
    ∀ (l : List α), l.map f = l.map g
  | [] => rfl
  | x :: xs => by rw [List.map_cons, List.map_cons, h x, map_congr_fun f g h xs]

/-- the per-pair stock deltas of an order: (product id, quantity) along the
zip of requested items and validated snapshots. -/
def orderDeltaList (items : List OrderItemCreate) (infos : List ProductSnapshot) :
    List (String × ℤ) :=
  (items.zip infos).map (fun pr => (pr.1.product_id, (pr.1.quantity : ℤ)))

/-- sequential application of stock deltas. -/
def applyDeltas : List Product → List (String × ℤ) → List Product
  | ps, [] => ps
  | ps, pr :: rest => applyDeltas (stockDelta ps pr.1 pr.2) rest

theorem applyDeltas_append : ∀ (L1 L2 : List (String × ℤ)) (ps : List Product),
    applyDeltas ps (L1 ++ L2) = applyDeltas (applyDeltas ps L1) L2
  | [], _, _ => rfl
  | pr :: L1, L2, ps => applyDeltas_append L1 L2 (stockDelta ps pr.1 pr.2)

theorem stockDelta_cancel (pid : String) (d : ℤ) :
    ∀ (ps : List Product), stockDelta (stockDelta ps pid d) pid (-d) = ps
  | [] => rfl
  | p :: ps => by
    have ih := stockDelta_cancel pid d ps
    unfold stockDelta at ih ⊢
    simp only [List.map_cons, List.cons.injEq]
    refine ⟨?_, ih⟩
    by_cases hp : p.id == pid
    · simp [hp, add_neg_cancel_right]
    · simp [hp]

/-- applying the negated deltas and then the deltas in reverse order is the
identity: the create-then-cancel stock round trip. -/
theorem applyDeltas_roundtrip : ∀ (L : List (String × ℤ)) (ps : List Product),
    applyDeltas ps (L.map (fun pr => (pr.1, -pr.2)) ++ L.reverse) = ps
  | [], _ => rfl
  | pr :: L, ps => by
    have hIH := applyDeltas_roundtrip L (stockDelta ps pr.1 (-pr.2))
    rw [List.map_cons, List.reverse_cons, List.cons_append]
    show applyDeltas (stockDelta ps pr.1 (-pr.2))
      (L.map (fun pr => (pr.1, -pr.2)) ++ (L.reverse ++ [pr])) = ps
    rw [← List.append_assoc, applyDeltas_append, hIH]
    show stockDelta (stockDelta ps pr.1 (-pr.2)) pr.1 pr.2 = ps
    have hc := stockDelta_cancel pr.1 (-pr.2) ps
    simpa using hc

theorem insertOrderItem_products (oid iid : String) (item : OrderItemCreate)
    (info : ProductSnapshot) (db : Db) :
    (insertOrderItem oid iid item info db).products =
      stockDelta db.products item.product_id (-(item.quantity : ℤ)) := by
  unfold insertOrderItem stockDelta
  apply map_congr_fun
  intro p
  by_cases hp : p.id == item.product_id
  · simp [hp, sub_eq_add_neg]
  · simp [hp]

theorem insertOrderItems_products (order_id : String) :
    ∀ (items : List OrderItemCreate) (infos : List ProductSnapshot) (db : Db) (k : ℕ),
      (insertOrderItems order_id db items infos k).products =
        applyDeltas db.products ((orderDeltaList items infos).map (fun pr => (pr.1, -pr.2)))
  | [], _, _, _ => rfl
  | _ :: _, [], _, _ => rfl
  | item :: items, info :: infos, db, k => by
    rw [insertOrderItems]
    rw [insertOrderItems_products order_id items infos _ (k + 1)]
    rw [insertOrderItem_products]
    simp only [orderDeltaList, List.zip_cons_cons, List.map_cons, applyDeltas]
    rfl

/-- the order-item row inserted by one iteration of the `create_order` item
loop (same construction as in `insertOrderItem`). -/
def mkOrderItemRow (order_id item_id : String) (item : OrderItemCreate) (info : ProductSnapshot) : OrderItemRow :=
  { id := item_id, order_id := order_id, product_id := item.product_id, product_name := info.name, quantity := item.quantity, size := item.size, color := item.color, product_price := info.price, subtotal := info.price * (item.quantity : ℚ) }

theorem insertOrderItems_items (order_id : String) :
    ∀ (items : List OrderItemCreate) (infos : List ProductSnapshot) (db : Db) (k : ℕ),
      ∃ rows, (insertOrderItems order_id db items infos k).order_items = rows ++ db.order_items ∧
        rows.map (fun r => (r.product_id, (r.quantity : ℤ))) =
          (orderDeltaList items infos).reverse ∧
        ∀ r ∈ rows, r.order_id = order_id
  | [], _, db, _ => ⟨[], rfl, by simp [orderDeltaList], by simp⟩
  | _ :: _, [], db, _ => ⟨[], rfl, by simp [orderDeltaList], by simp⟩
  | item :: items, info :: infos, db, k => by
    rw [insertOrderItems]
    obtain ⟨rows, h1, h2, h3⟩ := insertOrderItems_items order_id items infos
      (insertOrderItem order_id (order_id ++ ":" ++ toString k) item info db) (k + 1)
    refine ⟨rows ++ [mkOrderItemRow order_id (order_id ++ ":" ++ toString k) item info],
      ?_, ?_, ?_⟩
    · rw [h1]
      show rows ++
        (mkOrderItemRow order_id (order_id ++ ":" ++ toString k) item info :: db.order_items) = _
      rw [List.append_assoc, List.singleton_append]
    · rw [List.map_append, h2]
      simp [orderDeltaList, mkOrderItemRow]
    · intro r hr
      rcases List.mem_append.mp hr with h | h
      · exact h3 r h
      · simp only [List.mem_singleton] at h
        subst h
        rfl

theorem restoreStock_products : ∀ (items : List OrderItemRow) (db : Db),
    (restoreStock db items).products =
      applyDeltas db.products (items.map (fun oi => (oi.product_id, (oi.quantity : ℤ))))
  | [], _ => rfl
  | oi :: items, db => by
    show (restoreStock
      { db with products := stockDelta db.products oi.product_id (oi.quantity : ℤ) }
      items).products = _
    rw [restoreStock_products items]
    rfl

theorem restoreStock_orders : ∀ (items : List OrderItemRow) (db : Db),
    (restoreStock db items).orders = db.orders
  | [], _ => rfl
  | oi :: items, db => by
    show (restoreStock
      { db with products := stockDelta db.products oi.product_id (oi.quantity : ℤ) }
      items).orders = db.orders
    rw [restoreStock_orders items]

theorem finishOrder_products (db1 : Db) (user_id : String) (od : OrderCreate)
    (order_id order_number : String) (sa : Option Address) (s cd : ℚ)
    (infos : List ProductSnapshot) :
    (finishOrder db1 user_id od order_id order_number sa s cd infos).2.products =
      applyDeltas db1.products
        ((orderDeltaList od.items infos).map (fun pr => (pr.1, -pr.2))) := by
  unfold finishOrder
  exact insertOrderItems_products order_id od.items infos _ 0

theorem finishOrder_order_items (db1 : Db) (user_id : String) (od : OrderCreate)
    (order_id order_number : String) (sa : Option Address) (s cd : ℚ)
    (infos : List ProductSnapshot) :
    ∃ rows,
      (finishOrder db1 user_id od order_id order_number sa s cd infos).2.order_items =
        rows ++ db1.order_items ∧
      rows.map (fun r => (r.product_id, (r.quantity : ℤ))) =
        (orderDeltaList od.items infos).reverse ∧
      ∀ r ∈ rows, r.order_id = order_id := by
  unfold finishOrder
  exact insertOrderItems_items order_id od.items infos _ 0

theorem filter_rows_of_fresh (rows old : List OrderItemRow) (oid : String)
    (hall : ∀ r ∈ rows, r.order_id = oid) (hfresh : ∀ r ∈ old, r.order_id ≠ oid) :
    (rows ++ old).filter (fun oi => oi.order_id == oid) = rows := by
  rw [List.filter_append]
  have h1 : rows.filter (fun oi => oi.order_id == oid) = rows :=
    List.filter_eq_self.mpr (fun r hr => by simp [hall r hr])
  have h2 : old.filter (fun oi => oi.order_id == oid) = [] :=
    List.filter_eq_nil_iff.mpr (fun r hr => by simp [hfresh r hr])
  rw [h1, h2, List.append_nil]

/-- total quantity delta recorded for the product `pid` in a list of
(product id, quantity) pairs. -/
def sumDeltasFor (pid : String) : List (String × ℤ) → ℤ
  | [] => 0
  | pr :: L => (if pr.1 == pid then pr.2 else 0) + sumDeltasFor pid L

/-- per-product characterization of the stock restoration performed by
`cancel_order`: every product row's `stock_quantity` grows by the summed
quantity of the cancelled order's item rows for that product (zero when the
order has no item for it). -/
def restockedProducts (db : Db) (order_id : String) : List Product :=
  db.products.map (fun p => { p with stock_quantity := p.stock_quantity + sumDeltasFor p.id ((db.order_items.filter (fun oi => oi.order_id == order_id)).map (fun oi => (oi.product_id, (oi.quantity : ℤ)))) })

/-- applying a list of stock deltas touches each product row exactly by the
sum of the deltas recorded for its id. -/
theorem applyDeltas_eq_map : ∀ (L : List (String × ℤ)) (ps : List Product),
    applyDeltas ps L =
      ps.map (fun p => { p with stock_quantity := p.stock_quantity + sumDeltasFor p.id L })
  | [], ps => by
    have h : ∀ p : Product,
        ({ p with stock_quantity := p.stock_quantity + sumDeltasFor p.id [] } : Product) = p := by
      intro p
      obtain ⟨pid, pname, pslug, pprice, psq, pimages, pactive⟩ := p
      simp [sumDeltasFor]
    show ps = _
    rw [map_congr_fun _ id h, List.map_id]
  | pr :: L, ps => by
    have ih := applyDeltas_eq_map L (stockDelta ps pr.1 pr.2)
    show applyDeltas (stockDelta ps pr.1 pr.2) L = _
    rw [ih]
    unfold stockDelta
    rw [List.map_map]
    apply map_congr_fun
    intro p
    obtain ⟨pid, pname, pslug, pprice, psq, pimages, pactive⟩ := p
    by_cases hp : pid = pr.1
    · subst hp
      simp [sumDeltasFor, add_assoc]
    · simp [sumDeltasFor, hp, Ne.symm hp]

/-- **C6**: (1) for **every** order of the requesting user whose status is
`pending` or `confirmed` — whatever its items and however it arose —
`cancel_order` succeeds, sets exactly that order's status to `cancelled`, and
adds each of the order's item quantities back to its product's stock
(`stock_quantity += item.quantity` per product, summed over the order's item
rows for that product); (2) hence create followed by cancel is the identity on
stock levels: cancelling a freshly created order returns the product table to
the original one (the freshness hypothesis says no stale order-item row
already carries the new order's generated id); (3) cancelling an order whose
status is neither `pending` nor `confirmed` fails with `ConflictError`
("Order cannot be cancelled") and leaves all state unchanged. -/
theorem C6_cancel_restores_stock :
    (∀ (db : Db) (order_id user_id : String) (o : OrderRow),
      db.orders.find? (fun x => x.id == order_id && x.user_id == user_id) = some o →
      (o.status = OrderStatus.pending ∨ o.status = OrderStatus.confirmed) →
      (cancel_order db order_id user_id).1 = .ok true ∧
      (cancel_order db order_id user_id).2.orders =
        db.orders.map (fun x => if x.id == order_id then { x with status := OrderStatus.cancelled } else x) ∧
      (cancel_order db order_id user_id).2.products = restockedProducts db order_id) ∧
    (∀ (db : Db) (user_id : String) (od : OrderCreate) (order_id order_number ret : String)
      (db2 : Db),
      (∀ oi ∈ db.order_items, oi.order_id ≠ order_id) →
      create_order db user_id od order_id order_number = (.ok ret, db2) →
      (cancel_order db2 order_id user_id).1 = .ok true ∧
      (cancel_order db2 order_id user_id).2.products = db.products ∧
      ∃ x, (cancel_order db2 order_id user_id).2.orders.head? = some x ∧
        x.id = order_id ∧ x.status = OrderStatus.cancelled) ∧
    (∀ (db : Db) (order_id user_id : String) (o : OrderRow),
      db.orders.find? (fun x => x.id == order_id && x.user_id == user_id) = some o →
      o.status ≠ OrderStatus.pending → o.status ≠ OrderStatus.confirmed →
      cancel_order db order_id user_id = (.error (.conflict "Order cannot be cancelled"), db)) := by
  refine ⟨?_, ?_, ?_⟩
  · intro db order_id user_id o hfind hst
    have hcond : ¬ (o.status ≠ OrderStatus.pending ∧ o.status ≠ OrderStatus.confirmed) := by
      rcases hst with h | h <;> simp [h]
    unfold cancel_order
    simp only [hfind]
    rw [if_neg hcond]
    refine ⟨rfl, ?_, ?_⟩
    · exact restoreStock_orders _ _
    · show (restoreStock _ _).products = restockedProducts db order_id
      rw [restoreStock_products]
      rw [applyDeltas_eq_map]
      rfl
  · intro db user_id od order_id order_number ret db2 hfresh h
    unfold create_order at h
    cases hb : createOrderBody db user_id od order_id order_number with
    | error e => rw [hb] at h; exact absurd h (by simp)
    | ok pr =>
      obtain ⟨r0, dbX⟩ := pr
      rw [hb] at h
      simp only [Prod.mk.injEq, Except.ok.injEq] at h
      obtain ⟨-, hdb⟩ := h
      subst hdb
      obtain ⟨sa, subtotal, items_data, cd, db1, hval, hccS, hccN, hsS, hsN, hfin⟩ :=
        createOrderBody_ok_struct db user_id od order_id order_number r0 dbX hb
      have hdbX : dbX =
          (finishOrder db1 user_id od order_id order_number sa subtotal cd items_data).2 :=
        congrArg Prod.snd hfin
      have hdb1 : db1.products = db.products ∧ db1.orders = db.orders ∧
          db1.order_items = db.order_items := by
        cases hcc : od.coupon_code with
        | none =>
          obtain ⟨-, h1⟩ := hccN hcc
          subst h1
          exact ⟨rfl, rfl, rfl⟩
        | some cc =>
          obtain ⟨code, hac⟩ := hccS cc hcc
          obtain ⟨hp2, ho2, hoi2, -, -⟩ := applyCoupon_ok_products db cc subtotal cd code db1 hac
          exact ⟨hp2, ho2, hoi2⟩
      obtain ⟨rows, hitems, hpairs, hall⟩ := finishOrder_order_items db1 user_id od order_id
        order_number sa subtotal cd items_data
      subst hdbX
      have hordS :
          (finishOrder db1 user_id od order_id order_number sa subtotal cd items_data).2.orders =
            buildOrderRow user_id od order_id order_number sa subtotal cd :: db.orders := by
        rw [finishOrder_orders, hdb1.2.1]
      have hfind :
          (finishOrder db1 user_id od order_id order_number sa subtotal cd
            items_data).2.orders.find? (fun x => x.id == order_id && x.user_id == user_id) =
            some (buildOrderRow user_id od order_id order_number sa subtotal cd) := by
        rw [hordS]
        exact List.find?_cons_of_pos _ (by simp [buildOrderRow])
      have hfilter :
          (finishOrder db1 user_id od order_id order_number sa subtotal cd
            items_data).2.order_items.filter (fun oi => oi.order_id == order_id) = rows := by
        rw [hitems, hdb1.2.2]
        exact filter_rows_of_fresh rows db.order_items order_id hall hfresh
      have hrun : cancel_order
          (finishOrder db1 user_id od order_id order_number sa subtotal cd items_data).2
          order_id user_id =
          (.ok true, restoreStock
            { (finishOrder db1 user_id od order_id order_number sa subtotal cd items_data).2 with
              orders := (finishOrder db1 user_id od order_id order_number sa subtotal cd
                items_data).2.orders.map (fun x =>
                  if x.id == order_id then { x with status := OrderStatus.cancelled } else x) }
            rows) := by
        unfold cancel_order
        simp only [hfind]
        rw [if_neg (by simp [buildOrderRow]), hfilter]
      refine ⟨by rw [hrun], ?_, ?_⟩
      · rw [hrun]
        show (restoreStock _ rows).products = db.products
        rw [restoreStock_products]
        show applyDeltas
          (finishOrder db1 user_id od order_id order_number sa subtotal cd
            items_data).2.products (rows.map (fun oi => (oi.product_id, (oi.quantity : ℤ)))) =
          db.products
        rw [hpairs, finishOrder_products, hdb1.1, ← applyDeltas_append, applyDeltas_roundtrip]
      · refine ⟨{ buildOrderRow user_id od order_id order_number sa subtotal cd with
          status := OrderStatus.cancelled }, ?_, rfl, rfl⟩
        rw [hrun]
        show (restoreStock _ rows).orders.head? = _
        rw [restoreStock_orders]
        show ((finishOrder db1 user_id od order_id order_number sa subtotal cd
          items_data).2.orders.map (fun x =>
            if x.id == order_id then { x with status := OrderStatus.cancelled } else x)).head? = _
        rw [hordS, List.map_cons, List.head?_cons]
        simp [buildOrderRow]
  · intro db order_id user_id o hfind h1 h2
    unfold cancel_order
    simp only [hfind]
    rw [if_pos ⟨h1, h2⟩]

def c6Prod : Product where
  id := "p1"
  name := "Classic"
  slug := "classic"
  price := 10
  stock_quantity := 5
  images := []
  is_active := true

def c6Db : Db where
  products := [c6Prod]
  addresses := []
  coupons := []
  orders := []
  order_items := []
  cart_items := []

def c6Od : OrderCreate where
  items := [⟨"p1", 2, none, none⟩]
  shipping_address_id := none
  billing_address_id := none
  payment_method := none
  priority := "medium"
  coupon_code := none
  notes := none

def c6ConflictDb : Db where
  products := []
  addresses := []
  coupons := []
  orders := [fixtureOrder "o9" "u1" .delivered 30]
  order_items := []
  cart_items := []

def c6ConfProd : Product where
  id := "p9"
  name := "Jacket"
  slug := "jacket"
  price := 15
  stock_quantity := 1
  images := []
  is_active := true

def c6ConfItem : OrderItemRow where
  id := "i1"
  order_id := "o5"
  product_id := "p9"
  product_name := "Jacket"
  quantity := 2
  size := none
  color := none
  product_price := 15
  subtotal := 30

/-- a pre-existing **confirmed** order with an already-persisted item row. -/
def c6ConfirmedDb : Db where
  products := [c6ConfProd]
  addresses := []
  coupons := []
  orders := [fixtureOrder "o5" "u1" .confirmed 30]
  order_items := [c6ConfItem]
  cart_items := []

/-- C6 witness: cancelling a pre-existing **confirmed** order succeeds, marks
it `cancelled`, and restores its item quantity to the product stock
(1 + 2 = 3); creating a 2-unit order (stock 5 → 3) and cancelling it brings
the product table back to the original (stock 5); cancelling a delivered order
fails with `ConflictError` and changes nothing. -/
theorem C6_cancel_restores_stock_witness :
    (cancel_order c6ConfirmedDb "o5" "u1").1 = .ok true ∧
    (cancel_order c6ConfirmedDb "o5" "u1").2.products.map (fun p => p.stock_quantity) = [3] ∧
    (cancel_order c6ConfirmedDb "o5" "u1").2.orders.map (fun x => x.status) =
      [OrderStatus.cancelled] ∧
    (cancel_order (create_order c6Db "u1" c6Od "o1" "N1").2 "o1" "u1").2.products =
      c6Db.products ∧
    cancel_order c6ConflictDb "o9" "u1" =
      (.error (.conflict "Order cannot be cancelled"), c6ConflictDb) := by
  have hgen := C6_cancel_restores_stock.1 c6ConfirmedDb "o5" "u1"
    (fixtureOrder "o5" "u1" .confirmed 30) (by with_unfolding_all rfl) (Or.inr rfl)
  refine ⟨hgen.1, ?_, ?_, ?_, ?_⟩
  · rw [hgen.2.2]
    with_unfolding_all rfl
  · rw [hgen.2.1]
    with_unfolding_all rfl
  · exact (C6_cancel_restores_stock.2.1 c6Db "u1" c6Od "o1" "N1" "o1"
      (create_order c6Db "u1" c6Od "o1" "N1").2 (by simp [c6Db])
      (by with_unfolding_all rfl)).2.1
  · exact C6_cancel_restores_stock.2.2 c6ConflictDb "o9" "u1"
      (fixtureOrder "o9" "u1" .delivered 30) (by with_unfolding_all rfl)
      (by with_unfolding_all decide) (by with_unfolding_all decide)

end AjeboTailor
